import Mathlib

/-!
Shallow embedding of the Tab Title Randomiser browser extension
(source: src/popup.js) together with proofs about its save / disguise /
restore state machine.

Modelling conventions:
* The page of a tab is modelled by `Page`: its document title, origin,
  the list of link elements of the document (in document order), the
  content of a possible `meta[itemprop='image']` tag and the result of
  the synchronous `img.complete` probe for `origin ++ "/favicon.ico"`.
* A link element's `href` property is modelled as the stored string; a
  link without an `href` attribute has `href = ""` (as the DOM `href`
  IDL attribute reports for a missing attribute).
* `chrome.storage.local` holds one key, `originalTabDetails`; `none`
  models the absent key, `some s` a stored object with entries `s`
  (string key, value), in insertion order.
* `chrome.scripting.executeScript` calls always reach the page in this
  model, except that a per-tab read may fail (`readOk = false`, yielding
  the tab's omission from the snapshot, as in the source's catch
  branches) and a restore call whose tab id matches no open tab has no
  effect (the rejected promise is caught and logged in the source).
* `Math.floor(Math.random() * keys.length)` is modelled by an arbitrary
  draw function `rand : Nat → Nat` reduced modulo `keys.length`; the
  draw index advances once per eligible tab, as the source calls
  `Math.random()` once per eligible tab.
-/

set_option autoImplicit false

namespace TabRandomiser

/-! ## String helpers -/

/-- Substring test on character lists: does `hay` contain `pat` as a
contiguous sublist?  Used to model the CSS selector `link[rel*='icon']`. -/
def hasSub (hay pat : List Char) : Bool :=
  pat.isPrefixOf hay ||
    match hay with
    | [] => false
    | _ :: t => hasSub t pat

/-- Substring test on strings, modelling the attribute-contains CSS
selector `[rel*='icon']`. -/
def strHas (s pat : String) : Bool :=
  hasSub s.toList pat.toList

/-- Prefix test on strings, modelling JavaScript's
`String.prototype.startsWith`. -/
def strStartsWith (s pre : String) : Bool :=
  pre.toList.isPrefixOf s.toList

/-! ## JavaScript number parsing (`parseInt`) -/

/-- Whitespace skipped by JavaScript's `parseInt` (common cases). -/
def isJsSpace (c : Char) : Bool :=
  c == ' ' || c == '\t' || c == '\n' || c == '\r'

/-- Hexadecimal digit test, for `parseInt`'s `0x` prefix handling. -/
def isHexDigitCh (c : Char) : Bool :=
  c.isDigit || ('a' ≤ c && c ≤ 'f') || ('A' ≤ c && c ≤ 'F')

/-- Value of a hexadecimal digit character. -/
def hexDigitVal (c : Char) : Nat :=
  if c.isDigit then c.toNat - 48
  else if 'a' ≤ c && c ≤ 'f' then c.toNat - 87
  else c.toNat - 55

/-- Value of the decimal digit list read most-significant first. -/
def digitsVal (cs : List Char) : Nat :=
  cs.foldl (fun a c => 10 * a + (c.toNat - 48)) 0

/-- Value of the hexadecimal digit list read most-significant first. -/
def hexVal (cs : List Char) : Nat :=
  cs.foldl (fun a c => 16 * a + hexDigitVal c) 0

/-- Does the character list start with `0x` or `0X`?  JavaScript's
`parseInt` with no radix argument then parses hexadecimal digits. -/
def isHexPrefix (cs : List Char) : Bool :=
  match cs with
  | c0 :: c1 :: _ => c0 == '0' && (c1 == 'x' || c1 == 'X')
  | _ => false

/-- Unsigned part of JavaScript `parseInt`: a `0x`/`0X` prefix switches
to hexadecimal, otherwise the longest decimal digit prefix is read;
`none` models `NaN` (no digit found). -/
def parseUnsigned (cs : List Char) : Option Nat :=
  if isHexPrefix cs then
    let ds := (cs.drop 2).takeWhile isHexDigitCh
    if ds.isEmpty then none else some (hexVal ds)
  else
    let ds := cs.takeWhile Char.isDigit
    if ds.isEmpty then none else some (digitsVal ds)

/-- Model of JavaScript `parseInt(s)` (radix unspecified): skip leading
whitespace, read an optional sign, then digits; `none` models `NaN`,
which is exactly what `isNaN(tabId)` detects in `undoChanges`. -/
def jsParseInt (s : String) : Option Int :=
  match s.toList.dropWhile isJsSpace with
  | [] => none
  | c :: rest =>
    if c == '-' then (parseUnsigned rest).map (fun v => -(v : Int))
    else if c == '+' then (parseUnsigned rest).map (fun v => (v : Int))
    else (parseUnsigned (c :: rest)).map (fun v => (v : Int))

/-! ## Decimal printing of tab ids

JavaScript object keys written as `originalDetails[tab.id]` are the
decimal string of the (integral, non-negative) tab id; `natDigits`
reproduces that decimal string. -/

/-- Character of one decimal digit. -/
def digitChar (d : Nat) : Char :=
  match d with
  | 0 => '0' | 1 => '1' | 2 => '2' | 3 => '3' | 4 => '4'
  | 5 => '5' | 6 => '6' | 7 => '7' | 8 => '8' | _ => '9'

/-- Decimal digit characters, most significant first; the fuel bounds
the recursion depth structurally (any fuel above the digit count gives
the exact digits). -/
def natDigitsAux (fuel n : Nat) : List Char :=
  match fuel with
  | 0 => []
  | fuel + 1 =>
    if n < 10 then [digitChar n]
    else natDigitsAux fuel (n / 10) ++ [digitChar (n % 10)]

/-- Decimal digit characters of `n`, most significant first. -/
def natDigits (n : Nat) : List Char :=
  natDigitsAux (n + 1) n

/-- The storage key JavaScript produces for the numeric tab id `n`. -/
def natKey (n : Nat) : String :=
  ⟨natDigits n⟩

/-! ## Data model -/

/-- A `link` element of a page: its `rel` and `href` attributes. -/
structure LinkEl where
  rel : String
  href : String
deriving DecidableEq

/-- Live presentation state of one tab's top-level page. -/
structure Page where
  title : String
  origin : String
  links : List LinkEl
  metaImage : Option String
  faviconProbeComplete : Bool
deriving DecidableEq

/-- The per-tab record captured into the snapshot (the return value of
`getTabDetails` in src/popup.js). -/
structure TabDetails where
  title : String
  faviconHref : Option String
  faviconRel : String
deriving DecidableEq

/-- One disguise profile from data/domain_mappings.json; a field that is
absent or not a string is `none`. -/
structure Profile where
  title : Option String
  favicon : Option String
deriving DecidableEq

/-- An open browser tab: identifier, URL, whether the snapshot-phase
read into its page succeeds, and its page. -/
structure TabEntry where
  id : Option Nat
  url : String
  readOk : Bool
  page : Page
deriving DecidableEq

/-- The persisted snapshot object: entries keyed by the string-encoded
tab id, in insertion order. -/
abbrev Snapshot := List (String × TabDetails)

/-- The state the extension acts on: the persisted `originalTabDetails`
key (absent = `none`) and the currently open tabs. -/
structure World where
  storage : Option Snapshot
  tabs : List TabEntry
deriving DecidableEq

/-! ## Content-script functions (src/popup.js lines 177-324) -/

/-- The fixed 1x1 transparent-GIF data URI used by `purgeTabDetails` and
the fallback branch of `restoreTabDetails`. -/
def blankFavicon : String :=
  "data:image/gif;base64,R0lGODlhAQABAIAAAAAAAP///yH5BAEAAAAALAAAAAABAAEAAAIBRAA7"

/-- Model of the icon-link lookup in `getTabDetails`:
`querySelector("link[rel='icon']") || querySelector("link[rel='shortcut icon']")
|| querySelector("link[rel*='icon']")`. -/
def findIconLink (links : List LinkEl) : Option LinkEl :=
  match links.find? (fun l => l.rel == "icon") with
  | some l => some l
  | none =>
    match links.find? (fun l => l.rel == "shortcut icon") with
    | some l => some l
    | none => links.find? (fun l => strHas l.rel "icon")

/-- Model of `getTabDetails` (src/popup.js, content script): current
title and best favicon, trying the icon link tags, then the synchronous
`origin/favicon.ico` probe, then the `meta[itemprop='image']` tag. -/
def getTabDetails (p : Page) : TabDetails :=
  match findIconLink p.links with
  | none =>
    if p.faviconProbeComplete then
      { title := p.title
        faviconHref := some (p.origin ++ "/favicon.ico")
        faviconRel := "icon" }
    else
      match p.metaImage with
      | some content =>
        { title := p.title, faviconHref := some content, faviconRel := "icon" }
      | none =>
        { title := p.title, faviconHref := none, faviconRel := "icon" }
  | some l =>
    { title := p.title, faviconHref := some l.href, faviconRel := l.rel }

/-- Model of `purgeTabDetails`: title becomes a single zero-width space;
every link matching `link[rel*='icon']` gets the blank favicon href and
its rel standardized to `icon`; if no such link existed one is appended. -/
def purgeTabDetails (p : Page) : Page :=
  { p with
    title := "\u200B"
    links :=
      if p.links.any (fun l => strHas l.rel "icon") then
        p.links.map (fun l =>
          if strHas l.rel "icon" then { rel := "icon", href := blankFavicon } else l)
      else
        p.links ++ [{ rel := "icon", href := blankFavicon }] }

/-- JavaScript truthiness of an optional string field: absent (`none`)
and the empty string are falsy. -/
def jsTruthyStr (o : Option String) : Bool :=
  match o with
  | none => false
  | some s => s != ""

/-- Model of `setSpecificDetails`: abort if `details.title` or
`details.favicon` is falsy; otherwise set the title, remove every
`link[rel*='icon']` element and append one new icon link with the given
favicon (the `type` attribute and the transient cache-bust href toggle
leave no net state and are not modelled). -/
def setSpecificDetails (details : Profile) (p : Page) : Page :=
  if !(jsTruthyStr details.title) || !(jsTruthyStr details.favicon) then p
  else
    { p with
      title := details.title.getD ""
      links := p.links.filter (fun l => !(strHas l.rel "icon")) ++
        [{ rel := "icon", href := details.favicon.getD "" }] }

/-- Model of `restoreTabDetails`: set the saved title, remove every
`link[rel*='icon']` element; if the saved `faviconHref` is truthy append
a link with the saved rel (defaulted to `icon` when falsy) and href,
otherwise append the blank favicon link (in this model `appendChild`
never throws, so the append-failure fallback collapses into the
falsy-href branch). -/
def restoreTabDetails (d : TabDetails) (p : Page) : Page :=
  let kept := p.links.filter (fun l => !(strHas l.rel "icon"))
  if jsTruthyStr d.faviconHref then
    { p with
      title := d.title
      links := kept ++
        [{ rel := if d.faviconRel != "" then d.faviconRel else "icon"
           href := d.faviconHref.getD "" }] }
  else
    { p with
      title := d.title
      links := kept ++ [{ rel := "icon", href := blankFavicon }] }

/-! ## Mapping loader (src/popup.js lines 4-22) -/

/-- A JSON value, for the body of data/domain_mappings.json. -/
inductive JValue where
  | jnull
  | jbool (b : Bool)
  | jnum (n : Int)
  | jstr (s : String)
  | jarr (elems : List JValue)
  | jobj (fields : List (String × JValue))

/-- Outcome of `fetch('data/domain_mappings.json')` followed by
`response.json()`: network rejection, a non-ok HTTP status (which the
source turns into a thrown error), a JSON parse rejection, or a parsed
body. -/
inductive FetchOutcome where
  | netError
  | httpError (status : Nat)
  | parseError
  | body (v : JValue)

/-- String field of a JSON object, as a `Profile` field: absent or
non-string values become `none`. -/
def jStrField (fields : List (String × JValue)) (k : String) : Option String :=
  match fields.lookup k with
  | some (JValue.jstr s) => some s
  | _ => none

/-- One mapping value as a `Profile` ({title, favicon}). -/
def jProfile (v : JValue) : Profile :=
  match v with
  | JValue.jobj fields =>
    { title := jStrField fields "title", favicon := jStrField fields "favicon" }
  | _ => { title := none, favicon := none }

/-- Model of `loadDomainMappings`: any transport, HTTP, or parse failure
is caught and yields the empty mapping; a body that is not a plain
non-array object fails the `typeof`/null/Array validation and also
yields the empty mapping; otherwise the object's fields, in key order. -/
def loadDomainMappings (fo : FetchOutcome) : List (String × Profile) :=
  match fo with
  | FetchOutcome.netError => []
  | FetchOutcome.httpError _ => []
  | FetchOutcome.parseError => []
  | FetchOutcome.body v =>
    match v with
    | JValue.jobj fields => fields.map (fun f => (f.1, jProfile f.2))
    | _ => []

/-! ## Tab disguise engine (src/popup.js lines 25-127) -/

/-- JavaScript truthiness of `tab.id`: absent and `0` are falsy. -/
def jsTruthyId (o : Option Nat) : Bool :=
  match o with
  | none => false
  | some n => n != 0

/-- The per-tab eligibility test used by every loop of `manageTabs`:
`tab.id && tab.url && (tab.url.startsWith('http:') ||
tab.url.startsWith('https:'))`. -/
def eligible (t : TabEntry) : Bool :=
  jsTruthyId t.id && t.url != "" &&
    (strStartsWith t.url "http:" || strStartsWith t.url "https:")

/-- Ids of the eligible tabs, in tab order: the targets of the per-tab
script dispatch loops. -/
def eligIds (tabs : List TabEntry) : List Nat :=
  (tabs.filter eligible).filterMap (fun t => t.id)

/-- Is the persisted value absent or an empty object?  This is the test
`!existingSavedState || Object.keys(existingSavedState).length === 0`. -/
def isEmptyStorage (st : Option Snapshot) : Bool :=
  match st with
  | none => true
  | some s => s.isEmpty

/-- The snapshot aggregated by the save phase: one entry per eligible
tab whose in-page read succeeds and returns a result, keyed by the
decimal string of its id, in tab order. -/
def captureSnapshot (tabs : List TabEntry) : Snapshot :=
  tabs.filterMap (fun t =>
    if eligible t && t.readOk then
      some (natKey (t.id.getD 0), getTabDetails t.page)
    else none)

/-- Storage after the save phase of `manageTabs`: a fresh capture is
persisted when no (non-empty) saved state exists, otherwise the existing
value is kept untouched. -/
def savePhaseStorage (w : World) : Option Snapshot :=
  if isEmptyStorage w.storage then some (captureSnapshot w.tabs) else w.storage

/-- Read dispatches of the save phase: one `getTabDetails` injection per
eligible tab when the save phase runs, none otherwise. -/
def savePhaseReads (w : World) : List Nat :=
  if isEmptyStorage w.storage then eligIds w.tabs else []

/-- The purgeAll apply phase: `purgeTabDetails` is injected into every
eligible tab; other tabs are untouched. -/
def purgeApply (tabs : List TabEntry) : List TabEntry :=
  tabs.map (fun t =>
    if eligible t then { t with page := purgeTabDetails t.page } else t)

/-- The professional apply phase: each eligible tab receives
`setSpecificDetails` with the profile at a random key index (the draw
counter `i` advances once per eligible tab). -/
def applyProfessional (mapping : List (String × Profile)) (rand : Nat → Nat) :
    List TabEntry → Nat → List TabEntry
  | [], _ => []
  | t :: ts, i =>
    if eligible t then
      let keys := mapping.map Prod.fst
      let k := keys.getD (rand i % keys.length) ""
      let details := (mapping.lookup k).getD { title := none, favicon := none }
      { t with page := setSpecificDetails details t.page } ::
        applyProfessional mapping rand ts (i + 1)
    else
      t :: applyProfessional mapping rand ts i

/-- Result of one `manageTabs` invocation: the new world, the tab ids of
the dispatched save-phase reads and apply-phase writes, and whether the
save phase ran (performing its `chrome.storage.local.set`). -/
structure MTOut where
  world : World
  reads : List Nat
  writes : List Nat
  snapSaved : Bool
deriving DecidableEq

/-- Model of `manageTabs(mode)`: the save phase runs iff no non-empty
saved state exists; then the apply phase dispatches per `mode` —
`purgeTabDetails` for purgeAll, a random profile per tab for
professional (aborted entirely when the loaded mapping is empty), and
nothing for any other mode. -/
def manageTabs (mode : String) (fo : FetchOutcome) (rand : Nat → Nat)
    (w : World) : MTOut :=
  if mode == "purgeAll" then
    { world := { storage := savePhaseStorage w, tabs := purgeApply w.tabs }
      reads := savePhaseReads w
      writes := eligIds w.tabs
      snapSaved := isEmptyStorage w.storage }
  else if mode == "professional" then
    if (loadDomainMappings fo).isEmpty then
      { world := { storage := savePhaseStorage w, tabs := w.tabs }
        reads := savePhaseReads w
        writes := []
        snapSaved := isEmptyStorage w.storage }
    else
      { world :=
          { storage := savePhaseStorage w
            tabs := applyProfessional (loadDomainMappings fo) rand w.tabs 0 }
        reads := savePhaseReads w
        writes := eligIds w.tabs
        snapSaved := isEmptyStorage w.storage }
  else
    { world := { storage := savePhaseStorage w, tabs := w.tabs }
      reads := savePhaseReads w
      writes := []
      snapSaved := isEmptyStorage w.storage }

/-! ## Undo operation (src/popup.js lines 130-166) -/

/-- Result of one `undoChanges` invocation: the new world and the tab
ids (as parsed) of the dispatched restore injections. -/
structure UndoOut where
  world : World
  restores : List Int
deriving DecidableEq

/-- One iteration of the restore loop: skip the entry when its key fails
`parseInt` (`isNaN` check); otherwise inject `restoreTabDetails` with
the entry's details into the tab with that id (no effect when no open
tab has the id — the rejection is caught). -/
def restoreStep (tabs : List TabEntry) (e : String × TabDetails) : List TabEntry :=
  match jsParseInt e.1 with
  | none => tabs
  | some m =>
    tabs.map (fun t =>
      if t.id.map (fun k => (k : Int)) == some m then
        { t with page := restoreTabDetails e.2 t.page }
      else t)

/-- Model of `undoChanges`: a no-op when the persisted snapshot is
absent or empty; otherwise every entry with a numeric key is restored,
and the storage key is removed unconditionally afterwards. -/
def undoChanges (w : World) : UndoOut :=
  match w.storage with
  | none => { world := w, restores := [] }
  | some s =>
    if s.isEmpty then { world := w, restores := [] }
    else
      { world := { storage := none, tabs := s.foldl restoreStep w.tabs }
        restores := s.filterMap (fun e => jsParseInt e.1) }

/-! ## Invocation sequences

The popup exposes three triggers: purge-all, professional and undo.
`Event` is one user-triggered invocation together with the environment
(fetch outcome and random draws) it runs under. -/

/-- One user-triggered invocation of the extension. -/
inductive Event where
  | disguiseEv (mode : String) (fo : FetchOutcome) (rand : Nat → Nat)
  | undoEv

/-- The world after one invocation. -/
def stepWorld (e : Event) (w : World) : World :=
  match e with
  | Event.disguiseEv mode fo rand => (manageTabs mode fo rand w).world
  | Event.undoEv => (undoChanges w).world

/-- All tab ids targeted by a script injection (read, write or restore)
during one invocation. -/
def stepTargets (e : Event) (w : World) : List Int :=
  match e with
  | Event.disguiseEv mode fo rand =>
    ((manageTabs mode fo rand w).reads ++ (manageTabs mode fo rand w).writes).map
      Int.ofNat
  | Event.undoEv => (undoChanges w).restores

/-- The world after a sequence of invocations. -/
def runWorld (w : World) : List Event → World
  | [] => w
  | e :: es => runWorld (stepWorld e w) es

/-- All tab ids targeted by any script injection during a sequence of
invocations. -/
def runTargets (w : World) : List Event → List Int
  | [] => []
  | e :: es => stepTargets e w ++ runTargets (stepWorld e w) es

/-! ## Lemmas about strings and icon links -/

theorem strHas_empty_hay : strHas "" "icon" = false := by decide

theorem strHas_ne_empty {s : String} (h : strHas s "icon" = true) : s ≠ "" := by
  intro he
  rw [he, strHas_empty_hay] at h
  exact Bool.false_ne_true h

theorem findIconLink_strHas {links : List LinkEl} {l : LinkEl}
    (h : findIconLink links = some l) : strHas l.rel "icon" = true := by
  unfold findIconLink at h
  split at h
  · rename_i l1 h1
    cases h
    have := List.find?_some h1
    have hrel : l.rel = "icon" := by
      have := eq_of_beq this
      exact this
    rw [hrel]
    decide
  · split at h
    · rename_i l2 h2
      cases h
      have := List.find?_some h2
      have hrel : l.rel = "shortcut icon" := eq_of_beq this
      rw [hrel]
      decide
    · simpa using List.find?_some h

theorem getTabDetails_rel_ne_empty (p : Page) : (getTabDetails p).faviconRel ≠ "" := by
  unfold getTabDetails
  split
  · split
    · intro h
      simp at h
    · split <;> intro h <;> simp_all
  · rename_i l hl
    have := findIconLink_strHas hl
    simpa using strHas_ne_empty this

/-! ## Lemmas about decimal keys and parseInt -/

theorem digitChar_isDigit (d : Nat) : (digitChar d).isDigit = true := by
  unfold digitChar
  split <;> decide

theorem digitChar_toNat {d : Nat} (h : d < 10) : (digitChar d).toNat - 48 = d := by
  interval_cases d <;> rfl

theorem natDigitsAux_digits :
    ∀ fuel n, n < fuel → ∀ c ∈ natDigitsAux fuel n, c.isDigit = true := by
  intro fuel
  induction fuel with
  | zero => intro n h; omega
  | succ f ih =>
    intro n h c hc
    rw [natDigitsAux] at hc
    split at hc
    · simp only [List.mem_singleton] at hc
      subst hc
      exact digitChar_isDigit _
    · rw [List.mem_append] at hc
      cases hc with
      | inl hm => exact ih (n / 10) (by omega) c hm
      | inr hm =>
        simp only [List.mem_singleton] at hm
        subst hm
        exact digitChar_isDigit _

theorem natDigits_digits : ∀ n, ∀ c ∈ natDigits n, c.isDigit = true :=
  fun n => natDigitsAux_digits (n + 1) n (Nat.lt_succ_self n)

theorem natDigitsAux_ne_nil :
    ∀ fuel n, n < fuel → natDigitsAux fuel n ≠ [] := by
  intro fuel
  cases fuel with
  | zero => intro n h; omega
  | succ f =>
    intro n _
    rw [natDigitsAux]
    split
    · simp
    · simp

theorem natDigits_ne_nil (n : Nat) : natDigits n ≠ [] :=
  natDigitsAux_ne_nil (n + 1) n (Nat.lt_succ_self n)

theorem digitsVal_append (xs : List Char) (c : Char) :
    digitsVal (xs ++ [c]) = 10 * digitsVal xs + (c.toNat - 48) := by
  simp [digitsVal, List.foldl_append]

theorem natDigitsAux_val :
    ∀ fuel n, n < fuel → digitsVal (natDigitsAux fuel n) = n := by
  intro fuel
  induction fuel with
  | zero => intro n h; omega
  | succ f ih =>
    intro n h
    rw [natDigitsAux]
    split
    · rename_i hlt
      simp [digitsVal, digitChar_toNat hlt]
    · rename_i hge
      rw [digitsVal_append, ih (n / 10) (by omega),
        digitChar_toNat (Nat.mod_lt n (by omega))]
      omega

theorem digitsVal_natDigits : ∀ n, digitsVal (natDigits n) = n :=
  fun n => natDigitsAux_val (n + 1) n (Nat.lt_succ_self n)

theorem takeWhile_all {α : Type} (p : α → Bool) :
    ∀ l : List α, (∀ c ∈ l, p c = true) → l.takeWhile p = l := by
  intro l
  induction l with
  | nil => intro _; rfl
  | cons a t ih =>
    intro h
    rw [List.takeWhile_cons, h a (List.mem_cons_self a t),
      ih (fun c hc => h c (List.mem_cons_of_mem a hc))]
    simp

theorem digit_beq_false {c : Char} (d : Char) (h : c.isDigit = true)
    (hd : d.isDigit = false) : (c == d) = false := by
  cases hb : c == d with
  | true =>
    have : c = d := eq_of_beq hb
    rw [this, hd] at h
    exact absurd h (by simp)
  | false => rfl

theorem isJsSpace_of_digit {c : Char} (h : c.isDigit = true) : isJsSpace c = false := by
  unfold isJsSpace
  rw [digit_beq_false ' ' h (by decide), digit_beq_false '\t' h (by decide),
    digit_beq_false '\n' h (by decide), digit_beq_false '\r' h (by decide)]
  rfl

theorem isHexPrefix_natDigits (n : Nat) : isHexPrefix (natDigits n) = false := by
  unfold isHexPrefix
  split
  · rename_i c0 c1 rest heq
    have hc1 : c1.isDigit = true := by
      apply natDigits_digits n
      rw [heq]
      exact List.mem_cons_of_mem _ (List.mem_cons_self _ _)
    rw [digit_beq_false 'x' hc1 (by decide), digit_beq_false 'X' hc1 (by decide)]
    simp
  · rfl

theorem parseUnsigned_natDigits (n : Nat) : parseUnsigned (natDigits n) = some n := by
  unfold parseUnsigned
  rw [isHexPrefix_natDigits]
  simp only [Bool.false_eq_true, if_false]
  rw [takeWhile_all Char.isDigit (natDigits n) (natDigits_digits n)]
  rw [if_neg (by simp [List.isEmpty_iff, natDigits_ne_nil n])]
  rw [digitsVal_natDigits]

theorem jsParseInt_natKey (n : Nat) : jsParseInt (natKey n) = some (n : Int) := by
  obtain ⟨c, cs, hcs⟩ := List.exists_cons_of_ne_nil (natDigits_ne_nil n)
  have hcd : c.isDigit = true := by
    apply natDigits_digits n
    rw [hcs]
    exact List.mem_cons_self _ _
  have htl : (natKey n).toList = natDigits n := rfl
  unfold jsParseInt
  rw [htl, hcs, List.dropWhile_cons, isJsSpace_of_digit hcd]
  simp only [Bool.false_eq_true, if_false]
  rw [digit_beq_false '-' hcd (by decide), digit_beq_false '+' hcd (by decide)]
  simp only [Bool.false_eq_true, if_false]
  rw [← hcs, parseUnsigned_natDigits]
  rfl

theorem natKey_inj {a b : Nat} (h : natKey a = natKey b) : a = b := by
  have ha := jsParseInt_natKey a
  rw [h, jsParseInt_natKey b] at ha
  have : (b : Int) = (a : Int) := by simpa using ha
  omega

/-! ## Signature of a tab: the fields never touched by any operation -/

/-- The id, URL and read-success flag of a tab; every operation of the
extension changes only pages and storage, never these. -/
def tabSig (t : TabEntry) : Option Nat × String × Bool :=
  (t.id, t.url, t.readOk)

theorem eligible_congr {t1 t2 : TabEntry} (h : tabSig t1 = tabSig t2) :
    eligible t1 = eligible t2 := by
  have h1 : t1.id = t2.id := congrArg Prod.fst h
  have h2 : t1.url = t2.url := congrArg (fun x => x.2.1) h
  unfold eligible
  rw [h1, h2]

theorem tabSig_id {t1 t2 : TabEntry} (h : tabSig t1 = tabSig t2) : t1.id = t2.id :=
  congrArg Prod.fst h

theorem map_sig_of_pageonly (f : TabEntry → TabEntry)
    (hf : ∀ t, tabSig (f t) = tabSig t) (ts : List TabEntry) :
    (ts.map f).map tabSig = ts.map tabSig := by
  induction ts with
  | nil => rfl
  | cons a t ih => simp [hf, ih]

theorem purgeApply_sig (ts : List TabEntry) :
    (purgeApply ts).map tabSig = ts.map tabSig := by
  apply map_sig_of_pageonly
  intro t
  unfold tabSig
  by_cases h : eligible t = true <;> simp [h]

theorem applyProfessional_sig (mapping : List (String × Profile)) (rand : Nat → Nat) :
    ∀ ts i, (applyProfessional mapping rand ts i).map tabSig = ts.map tabSig := by
  intro ts
  induction ts with
  | nil => intro i; rfl
  | cons a t ih =>
    intro i
    unfold applyProfessional
    by_cases h : eligible a = true <;> simp [h, ih, tabSig]

theorem restoreStep_sig (ts : List TabEntry) (e : String × TabDetails) :
    (restoreStep ts e).map tabSig = ts.map tabSig := by
  unfold restoreStep
  split
  · rfl
  · apply map_sig_of_pageonly
    intro t
    unfold tabSig
    split <;> simp

theorem foldl_restoreStep_sig (s : Snapshot) :
    ∀ ts, (s.foldl restoreStep ts).map tabSig = ts.map tabSig := by
  induction s with
  | nil => intro ts; rfl
  | cons e rest ih =>
    intro ts
    rw [List.foldl_cons, ih, restoreStep_sig]

theorem eligIds_congr : ∀ l1 l2 : List TabEntry,
    l1.map tabSig = l2.map tabSig → eligIds l1 = eligIds l2 := by
  intro l1
  induction l1 with
  | nil =>
    intro l2 h
    cases l2 with
    | nil => rfl
    | cons b t2 => simp at h
  | cons a t1 ih =>
    intro l2 h
    cases l2 with
    | nil => simp at h
    | cons b t2 =>
      simp only [List.map_cons, List.cons.injEq] at h
      obtain ⟨hab, ht⟩ := h
      unfold eligIds
      rw [List.filter_cons, List.filter_cons, eligible_congr hab]
      by_cases hb : eligible b = true
      · rw [if_pos (by simp [hb]), if_pos (by simp [hb])]
        simp only [List.filterMap_cons]
        rw [tabSig_id hab]
        have := ih t2 ht
        unfold eligIds at this
        split <;> simp [this]
      · rw [if_neg (by simp [hb]), if_neg (by simp [hb])]
        exact ih t2 ht

/-! ## Shape lemmas for the engine -/

theorem manageTabs_storage (mode : String) (fo : FetchOutcome) (rand : Nat → Nat)
    (w : World) : (manageTabs mode fo rand w).world.storage = savePhaseStorage w := by
  unfold manageTabs
  split
  · rfl
  · split
    · split <;> rfl
    · rfl

theorem manageTabs_snapSaved (mode : String) (fo : FetchOutcome) (rand : Nat → Nat)
    (w : World) : (manageTabs mode fo rand w).snapSaved = isEmptyStorage w.storage := by
  unfold manageTabs
  split
  · rfl
  · split
    · split <;> rfl
    · rfl

theorem manageTabs_reads (mode : String) (fo : FetchOutcome) (rand : Nat → Nat)
    (w : World) : (manageTabs mode fo rand w).reads = savePhaseReads w := by
  unfold manageTabs
  split
  · rfl
  · split
    · split <;> rfl
    · rfl

theorem manageTabs_writes_sub (mode : String) (fo : FetchOutcome) (rand : Nat → Nat)
    (w : World) : ∀ n ∈ (manageTabs mode fo rand w).writes, n ∈ eligIds w.tabs := by
  unfold manageTabs
  split
  · intro n hn; exact hn
  · split
    · split
      · intro n hn; simp at hn
      · intro n hn; exact hn
    · intro n hn; simp at hn

theorem manageTabs_tabs_sig (mode : String) (fo : FetchOutcome) (rand : Nat → Nat)
    (w : World) :
    (manageTabs mode fo rand w).world.tabs.map tabSig = w.tabs.map tabSig := by
  unfold manageTabs
  split
  · exact purgeApply_sig w.tabs
  · split
    · split
      · rfl
      · exact applyProfessional_sig _ _ w.tabs 0
    · rfl

theorem undoChanges_tabs_sig (w : World) :
    (undoChanges w).world.tabs.map tabSig = w.tabs.map tabSig := by
  unfold undoChanges
  split
  · rfl
  · split
    · rfl
    · exact foldl_restoreStep_sig _ w.tabs

theorem stepWorld_tabs_sig (e : Event) (w : World) :
    (stepWorld e w).tabs.map tabSig = w.tabs.map tabSig := by
  cases e with
  | disguiseEv mode fo rand => exact manageTabs_tabs_sig mode fo rand w
  | undoEv => exact undoChanges_tabs_sig w

theorem stepWorld_eligIds (e : Event) (w : World) :
    eligIds (stepWorld e w).tabs = eligIds w.tabs :=
  eligIds_congr _ _ (stepWorld_tabs_sig e w)

theorem runWorld_tabs_sig (es : List Event) :
    ∀ w, (runWorld w es).tabs.map tabSig = w.tabs.map tabSig := by
  induction es with
  | nil => intro w; rfl
  | cons e rest ih =>
    intro w
    rw [runWorld, ih, stepWorld_tabs_sig]

theorem runWorld_eligIds (es : List Event) (w : World) :
    eligIds (runWorld w es).tabs = eligIds w.tabs :=
  eligIds_congr _ _ (runWorld_tabs_sig es w)

/-! ## Storage invariant: snapshot keys come from eligible tabs -/

theorem jsTruthyId_some {o : Option Nat} (h : jsTruthyId o = true) :
    ∃ k, o = some k ∧ k ≠ 0 := by
  cases o with
  | none => simp [jsTruthyId] at h
  | some k =>
    refine ⟨k, rfl, ?_⟩
    simpa [jsTruthyId] using h

theorem eligible_id {t : TabEntry} (h : eligible t = true) :
    ∃ k, t.id = some k ∧ k ≠ 0 := by
  unfold eligible at h
  exact jsTruthyId_some (by
    cases hj : jsTruthyId t.id
    · rw [hj] at h; simp at h
    · rfl)

theorem mem_eligIds_of {t : TabEntry} {ts : List TabEntry} {k : Nat}
    (ht : t ∈ ts) (he : eligible t = true) (hk : t.id = some k) :
    k ∈ eligIds ts := by
  unfold eligIds
  rw [List.mem_filterMap]
  exact ⟨t, List.mem_filter.mpr ⟨ht, he⟩, hk⟩

theorem captureSnapshot_key {ts : List TabEntry} {e : String × TabDetails}
    (h : e ∈ captureSnapshot ts) : ∃ m, e.1 = natKey m ∧ m ∈ eligIds ts := by
  unfold captureSnapshot at h
  rw [List.mem_filterMap] at h
  obtain ⟨t, ht, hf⟩ := h
  split at hf
  · rename_i hcond
    cases hf
    have he : eligible t = true := by
      cases heb : eligible t
      · rw [heb] at hcond; simp at hcond
      · rfl
    obtain ⟨k, hk, _⟩ := eligible_id he
    refine ⟨k, ?_, mem_eligIds_of ht he hk⟩
    simp [hk]
  · cases hf

/-- The storage keys are decimal strings of ids of currently eligible
tabs; this holds initially (empty or absent storage) and is preserved by
every invocation. -/
def storageOK (w : World) : Prop :=
  ∀ e ∈ w.storage.getD [], ∃ m, e.1 = natKey m ∧ m ∈ eligIds w.tabs

theorem storageOK_of_empty {w : World} (h : isEmptyStorage w.storage = true) :
    storageOK w := by
  intro e he
  unfold isEmptyStorage at h
  cases hs : w.storage with
  | none => rw [hs] at he; simp at he
  | some s =>
    rw [hs] at h he
    rw [List.isEmpty_iff] at h
    subst h
    simp at he

theorem savePhaseStorage_key {w : World} (hOK : storageOK w) :
    ∀ e ∈ (savePhaseStorage w).getD [], ∃ m, e.1 = natKey m ∧ m ∈ eligIds w.tabs := by
  intro e he
  unfold savePhaseStorage at he
  split at he
  · simp only [Option.getD_some] at he
    exact captureSnapshot_key he
  · exact hOK e he

theorem manageTabs_storageOK {mode : String} {fo : FetchOutcome} {rand : Nat → Nat}
    {w : World} (hOK : storageOK w) : storageOK (manageTabs mode fo rand w).world := by
  intro e he
  rw [manageTabs_storage] at he
  have := savePhaseStorage_key hOK e he
  obtain ⟨m, hm, hmem⟩ := this
  refine ⟨m, hm, ?_⟩
  have hsig : eligIds (manageTabs mode fo rand w).world.tabs = eligIds w.tabs :=
    eligIds_congr _ _ (manageTabs_tabs_sig mode fo rand w)
  rw [hsig]
  exact hmem

theorem undoChanges_storageOK {w : World} (hOK : storageOK w) :
    storageOK (undoChanges w).world := by
  have hsig : eligIds (undoChanges w).world.tabs = eligIds w.tabs :=
    eligIds_congr _ _ (undoChanges_tabs_sig w)
  intro e he
  rw [hsig]
  unfold undoChanges at he
  split at he
  · exact hOK e he
  · split at he
    · exact hOK e he
    · simp at he

theorem stepWorld_storageOK {e : Event} {w : World} (hOK : storageOK w) :
    storageOK (stepWorld e w) := by
  cases e with
  | disguiseEv mode fo rand => exact manageTabs_storageOK hOK
  | undoEv => exact undoChanges_storageOK hOK

theorem runWorld_storageOK (es : List Event) :
    ∀ w, storageOK w → storageOK (runWorld w es) := by
  induction es with
  | nil => intro w h; exact h
  | cons e rest ih =>
    intro w h
    exact ih _ (stepWorld_storageOK h)

/-! ## Every script injection targets an eligible tab -/

theorem savePhaseReads_sub (w : World) :
    ∀ n ∈ savePhaseReads w, n ∈ eligIds w.tabs := by
  unfold savePhaseReads
  split
  · intro n hn; exact hn
  · intro n hn; simp at hn

theorem undoChanges_restores_mem {w : World} :
    ∀ x ∈ (undoChanges w).restores,
      ∃ en ∈ w.storage.getD [], jsParseInt en.1 = some x := by
  intro x hx
  unfold undoChanges at hx
  split at hx
  · simp at hx
  · rename_i s hs
    split at hx
    · simp at hx
    · simp only [List.mem_filterMap] at hx
      obtain ⟨en, hen, hpar⟩ := hx
      exact ⟨en, by rw [hs]; exact hen, hpar⟩

theorem stepTargets_sub {e : Event} {w : World} (hOK : storageOK w) :
    ∀ x ∈ stepTargets e w, ∃ m ∈ eligIds w.tabs, x = (m : Int) := by
  intro x hx
  cases e with
  | disguiseEv mode fo rand =>
    have hx' : x ∈ ((manageTabs mode fo rand w).reads ++
        (manageTabs mode fo rand w).writes).map Int.ofNat := hx
    obtain ⟨n, hn, hxn⟩ := List.mem_map.mp hx'
    rw [List.mem_append] at hn
    cases hn with
    | inl h =>
      rw [manageTabs_reads] at h
      exact ⟨n, savePhaseReads_sub w n h, hxn.symm⟩
    | inr h =>
      exact ⟨n, manageTabs_writes_sub mode fo rand w n h, hxn.symm⟩
  | undoEv =>
    have hx' : x ∈ (undoChanges w).restores := hx
    obtain ⟨en, hen, hpar⟩ := undoChanges_restores_mem x hx'
    obtain ⟨m, hm, hmem⟩ := hOK en hen
    rw [hm, jsParseInt_natKey] at hpar
    cases hpar
    exact ⟨m, hmem, rfl⟩

theorem runTargets_sub (es : List Event) :
    ∀ w, storageOK w → ∀ x ∈ runTargets w es, ∃ m ∈ eligIds w.tabs, x = (m : Int) := by
  induction es with
  | nil => intro w _ x hx; simp [runTargets] at hx
  | cons e rest ih =>
    intro w hOK x hx
    rw [runTargets, List.mem_append] at hx
    cases hx with
    | inl h => exact stepTargets_sub hOK x h
    | inr h =>
      have := ih _ (stepWorld_storageOK hOK) x h
      obtain ⟨m, hmem, hxm⟩ := this
      rw [stepWorld_eligIds] at hmem
      exact ⟨m, hmem, hxm⟩

/-! ## Round-trip machinery: restoring a saved entry re-establishes the
original title and icon link, whatever the disguised page looks like -/

/-- The page shows the saved title and carries an icon link with the
saved rel and href. -/
def restoredProp (d : TabDetails) (p : Page) : Prop :=
  p.title = d.title ∧
    (⟨d.faviconRel, d.faviconHref.getD ""⟩ : LinkEl) ∈ p.links

theorem restore_establishes {d : TabDetails} (hF : jsTruthyStr d.faviconHref = true)
    (hR : d.faviconRel ≠ "") (q : Page) :
    restoredProp d (restoreTabDetails d q) := by
  unfold restoreTabDetails
  rw [if_pos hF]
  constructor
  · rfl
  · rw [if_pos (bne_iff_ne.mpr hR)]
    exact List.mem_append_right _ (List.mem_singleton.mpr rfl)

theorem restoreStep_mem {ts : List TabEntry} {e : String × TabDetails}
    {t' : TabEntry} (h : t' ∈ restoreStep ts e) :
    (jsParseInt e.1 = none ∧ t' ∈ ts) ∨
      ∃ m t, jsParseInt e.1 = some m ∧ t ∈ ts ∧
        t' = (if t.id.map (fun k => (k : Int)) == some m then
          { t with page := restoreTabDetails e.2 t.page } else t) := by
  unfold restoreStep at h
  split at h
  · exact Or.inl ⟨by assumption, h⟩
  · rename_i m hm
    obtain ⟨t, ht, hft⟩ := List.mem_map.mp h
    exact Or.inr ⟨m, t, hm, ht, hft.symm⟩

theorem fold_pres {n : Nat} {d : TabDetails} (hF : jsTruthyStr d.faviconHref = true)
    (hR : d.faviconRel ≠ "") :
    ∀ (entries : Snapshot) (ts : List TabEntry),
      (∀ e ∈ entries, jsParseInt e.1 = some (n : Int) → e.2 = d) →
      (∀ t ∈ ts, t.id = some n → restoredProp d t.page) →
      ∀ t ∈ entries.foldl restoreStep ts, t.id = some n → restoredProp d t.page := by
  intro entries
  induction entries with
  | nil => intro ts _ hts t ht; exact hts t ht
  | cons e rest ih =>
    intro ts hd hts t ht
    rw [List.foldl_cons] at ht
    refine ih (restoreStep ts e) (fun e' he' => hd e' (List.mem_cons_of_mem e he'))
      ?_ t ht
    intro t' ht' hid'
    rcases restoreStep_mem ht' with ⟨_, hmem⟩ | ⟨m, t0, hm, ht0, hft⟩
    · exact hts t' hmem hid'
    · by_cases hc : (t0.id.map (fun k => (k : Int)) == some m) = true
      · rw [hft, if_pos hc]
        rw [hft, if_pos hc] at hid'
        have hid0 : t0.id = some n := hid'
        have hmn : m = (n : Int) := by
          have := eq_of_beq hc
          rw [hid0] at this
          simpa using this.symm
        have he2 : e.2 = d := hd e (List.mem_cons_self e rest) (by rw [hm, hmn])
        rw [he2]
        exact restore_establishes hF hR _
      · rw [hft, if_neg hc]
        rw [hft, if_neg hc] at hid'
        exact hts t0 ht0 hid'

theorem fold_estab {n : Nat} {d : TabDetails} (hF : jsTruthyStr d.faviconHref = true)
    (hR : d.faviconRel ≠ "") :
    ∀ (entries : Snapshot) (ts : List TabEntry),
      (natKey n, d) ∈ entries →
      (∀ e ∈ entries, jsParseInt e.1 = some (n : Int) → e.2 = d) →
      ∀ t ∈ entries.foldl restoreStep ts, t.id = some n → restoredProp d t.page := by
  intro entries
  induction entries with
  | nil => intro ts hmem; exact absurd hmem (List.not_mem_nil _)
  | cons e rest ih =>
    intro ts hmem hd t ht hid
    rw [List.foldl_cons] at ht
    by_cases hp : jsParseInt e.1 = some (n : Int)
    · have he2 : e.2 = d := hd e (List.mem_cons_self e rest) hp
      refine fold_pres hF hR rest (restoreStep ts e)
        (fun e' he' => hd e' (List.mem_cons_of_mem e he')) ?_ t ht hid
      intro t' ht' hid'
      rcases restoreStep_mem ht' with ⟨hnone, _⟩ | ⟨m, t0, hm, ht0, hft⟩
      · rw [hnone] at hp; cases hp
      · rw [hm] at hp
        cases hp
        have hc : (t0.id.map (fun k => (k : Int)) == some ((n : Nat) : Int)) = true := by
          have hid0 : t0.id = some n := by
            by_cases hc0 : (t0.id.map (fun k => (k : Int)) == some ((n : Nat) : Int)) = true
            · rw [hft, if_pos hc0] at hid'; exact hid'
            · rw [hft, if_neg hc0] at hid'; exact hid'
          rw [hid0]
          simp
        rw [hft, if_pos hc, he2]
        exact restore_establishes hF hR _
    · have hne : e ≠ (natKey n, d) := by
        intro he
        rw [he] at hp
        exact hp (jsParseInt_natKey n)
      have hmem' : (natKey n, d) ∈ rest := by
        rcases List.mem_cons.mp hmem with h | h
        · exact absurd h.symm hne
        · exact h
      exact ih (restoreStep ts e)
        hmem' (fun e' he' => hd e' (List.mem_cons_of_mem e he')) t ht hid

theorem mem_of_sig {l1 l2 : List TabEntry} (h : l1.map tabSig = l2.map tabSig)
    {t : TabEntry} (ht : t ∈ l1) : ∃ t2 ∈ l2, tabSig t2 = tabSig t := by
  have : tabSig t ∈ l2.map tabSig := by
    rw [← h]
    exact List.mem_map_of_mem tabSig ht
  obtain ⟨t2, ht2, hs⟩ := List.mem_map.mp this
  exact ⟨t2, ht2, hs⟩

theorem undoChanges_world_of_nonempty {w : World} {s : Snapshot}
    (hs : w.storage = some s) (hne : s.isEmpty = false) :
    (undoChanges w).world = { storage := none, tabs := s.foldl restoreStep w.tabs } := by
  unfold undoChanges
  rw [hs]
  simp [hne]

theorem captureSnapshot_mem_self {ts : List TabEntry} {t : TabEntry} {n : Nat}
    (ht : t ∈ ts) (he : eligible t = true) (hro : t.readOk = true)
    (hid : t.id = some n) :
    (natKey n, getTabDetails t.page) ∈ captureSnapshot ts := by
  unfold captureSnapshot
  rw [List.mem_filterMap]
  refine ⟨t, ht, ?_⟩
  rw [if_pos (by rw [he, hro]; rfl)]
  rw [hid]
  rfl

theorem captureSnapshot_entry {ts : List TabEntry} {e : String × TabDetails}
    (h : e ∈ captureSnapshot ts) :
    ∃ t k, t ∈ ts ∧ eligible t = true ∧ t.id = some k ∧
      e = (natKey k, getTabDetails t.page) := by
  unfold captureSnapshot at h
  rw [List.mem_filterMap] at h
  obtain ⟨t, ht, hf⟩ := h
  split at hf
  · rename_i hcond
    cases hf
    have he : eligible t = true := by
      cases heb : eligible t
      · rw [heb] at hcond; simp at hcond
      · rfl
    obtain ⟨k, hk, _⟩ := eligible_id he
    exact ⟨t, k, ht, he, hk, by rw [hk]; rfl⟩
  · cases hf

/-! ## Claim C5: professional mode with an empty mapping aborts the
apply phase -/

/-- C5: when `applyMode(Professional)` obtains an empty mapping (empty,
unreachable, malformed, or not a plain non-array object file), the apply
phase is aborted: no per-tab write is dispatched, every tab is left
unchanged, the invocation completes, and the storage still holds the
result of the snapshot phase (a snapshot newly created there remains
persisted). -/
theorem c5_empty_mapping_aborts (fo : FetchOutcome) (r : Nat → Nat) (w : World)
    (hmap : loadDomainMappings fo = []) :
    (manageTabs "professional" fo r w).writes = [] ∧
    (manageTabs "professional" fo r w).world.tabs = w.tabs ∧
    (manageTabs "professional" fo r w).world.storage = savePhaseStorage w ∧
    (manageTabs "professional" fo r w).snapSaved = isEmptyStorage w.storage := by
  unfold manageTabs
  simp [hmap]

/-- C5 witness: a malformed mapping body (a JSON array) on a world with
one eligible tab and no prior snapshot. -/
theorem c5_witness :
    loadDomainMappings (FetchOutcome.body (JValue.jarr [])) = [] ∧
    ((manageTabs "professional" (FetchOutcome.body (JValue.jarr [])) (fun _ => 0)
        { storage := none
          tabs := [{ id := some 1, url := "https://a.example/x", readOk := true
                     page := { title := "Doc", origin := "https://a.example"
                               links := [], metaImage := none
                               faviconProbeComplete := false } }] }).writes = [] ∧
      (manageTabs "professional" (FetchOutcome.body (JValue.jarr [])) (fun _ => 0)
        { storage := none
          tabs := [{ id := some 1, url := "https://a.example/x", readOk := true
                     page := { title := "Doc", origin := "https://a.example"
                               links := [], metaImage := none
                               faviconProbeComplete := false } }] }).world.tabs =
        ({ storage := none
           tabs := [{ id := some 1, url := "https://a.example/x", readOk := true
                      page := { title := "Doc", origin := "https://a.example"
                                links := [], metaImage := none
                                faviconProbeComplete := false } }] } : World).tabs ∧
      (manageTabs "professional" (FetchOutcome.body (JValue.jarr [])) (fun _ => 0)
        { storage := none
          tabs := [{ id := some 1, url := "https://a.example/x", readOk := true
                     page := { title := "Doc", origin := "https://a.example"
                               links := [], metaImage := none
                               faviconProbeComplete := false } }] }).world.storage =
        savePhaseStorage
          { storage := none
            tabs := [{ id := some 1, url := "https://a.example/x", readOk := true
                       page := { title := "Doc", origin := "https://a.example"
                                 links := [], metaImage := none
                                 faviconProbeComplete := false } }] } ∧
      (manageTabs "professional" (FetchOutcome.body (JValue.jarr [])) (fun _ => 0)
        { storage := none
          tabs := [{ id := some 1, url := "https://a.example/x", readOk := true
                     page := { title := "Doc", origin := "https://a.example"
                               links := [], metaImage := none
                               faviconProbeComplete := false } }] }).snapSaved =
        isEmptyStorage (none : Option Snapshot)) :=
  ⟨rfl, c5_empty_mapping_aborts (FetchOutcome.body (JValue.jarr [])) (fun _ => 0) _ rfl⟩

/-! ## Claim C6: undo clears the snapshot unconditionally -/

/-- C6: for every non-empty snapshot, after undo's per-tab restores have
all settled — however many succeeded or failed, including all failing —
the persisted snapshot key is removed and not preserved for a retry. -/
theorem c6_storage_cleared (w : World) (s : Snapshot) (hs : w.storage = some s)
    (hne : s.isEmpty = false) : (undoChanges w).world.storage = none := by
  rw [undoChanges_world_of_nonempty hs hne]

/-- C6 witness: a snapshot with one entry whose tab no longer exists
(`tabs = []`, so every restore fails), yet the key is cleared. -/
theorem c6_witness :
    ({ storage := some [("7", { title := "Old", faviconHref := none
                                faviconRel := "icon" })]
       tabs := [] } : World).storage =
      some [("7", { title := "Old", faviconHref := none, faviconRel := "icon" })] ∧
    ([("7", ({ title := "Old", faviconHref := none
               faviconRel := "icon" } : TabDetails))].isEmpty = false) ∧
    (undoChanges
      { storage := some [("7", { title := "Old", faviconHref := none
                                 faviconRel := "icon" })]
        tabs := [] }).world.storage = none :=
  ⟨rfl, rfl, c6_storage_cleared _ _ rfl rfl⟩

/-! ## Claim C7: undo with no snapshot is a no-op -/

/-- C7: when the persisted snapshot key is absent or holds an empty
object, undo dispatches no per-tab injection and leaves the world (both
storage and tabs) unchanged. -/
theorem c7_undo_noop (w : World) (h : isEmptyStorage w.storage = true) :
    undoChanges w = { world := w, restores := [] } := by
  cases hs : w.storage with
  | none =>
    unfold undoChanges
    rw [hs]
  | some s =>
    have hemp : s.isEmpty = true := by
      rw [hs] at h
      exact h
    unfold undoChanges
    rw [hs]
    simp [hemp]

/-- C7 witness: undo on a world whose storage holds an empty object. -/
theorem c7_witness :
    isEmptyStorage (some ([] : Snapshot)) = true ∧
    undoChanges
        { storage := some []
          tabs := [{ id := some 3, url := "https://b.example/", readOk := true
                     page := { title := "B", origin := "https://b.example"
                               links := [], metaImage := none
                               faviconProbeComplete := false } }] } =
      { world :=
          { storage := some []
            tabs := [{ id := some 3, url := "https://b.example/", readOk := true
                       page := { title := "B", origin := "https://b.example"
                                 links := [], metaImage := none
                                 faviconProbeComplete := false } }] }
        restores := [] } :=
  ⟨rfl, c7_undo_noop _ rfl⟩

/-! ## Claim C8: snapshot entries with non-numeric keys are skipped -/

/-- C8: during undo, exactly the snapshot entries whose key parses to a
number get a restore dispatched (in order); an entry with a non-numeric
key is skipped without aborting the others — every other entry's restore
is still dispatched. -/
theorem c8_invalid_keys_skipped (w : World) (s : Snapshot) (hs : w.storage = some s) :
    (undoChanges w).restores = s.filterMap (fun e => jsParseInt e.1) ∧
    (∀ e ∈ s, ∀ m, jsParseInt e.1 = some m → m ∈ (undoChanges w).restores) := by
  have h1 : (undoChanges w).restores = s.filterMap (fun e => jsParseInt e.1) := by
    unfold undoChanges
    rw [hs]
    dsimp only
    split
    · rename_i hemp
      rw [List.isEmpty_iff] at hemp
      subst hemp
      rfl
    · rfl
  refine ⟨h1, ?_⟩
  intro e he m hm
  rw [h1, List.mem_filterMap]
  exact ⟨e, he, hm⟩

/-- C8 witness: a snapshot with a non-numeric key between two numeric
ones; the restores are exactly the two parsed ids, in order. -/
theorem c8_witness :
    ({ storage := some
         [("2", { title := "A", faviconHref := none, faviconRel := "icon" }),
          ("junk", { title := "B", faviconHref := none, faviconRel := "icon" }),
          ("5", { title := "C", faviconHref := none, faviconRel := "icon" })]
       tabs := [] } : World).storage =
      some
        [("2", { title := "A", faviconHref := none, faviconRel := "icon" }),
         ("junk", { title := "B", faviconHref := none, faviconRel := "icon" }),
         ("5", { title := "C", faviconHref := none, faviconRel := "icon" })] ∧
    (undoChanges
        { storage := some
            [("2", { title := "A", faviconHref := none, faviconRel := "icon" }),
             ("junk", { title := "B", faviconHref := none, faviconRel := "icon" }),
             ("5", { title := "C", faviconHref := none, faviconRel := "icon" })]
          tabs := [] }).restores =
      ([("2", ({ title := "A", faviconHref := none, faviconRel := "icon" } : TabDetails)),
        ("junk", { title := "B", faviconHref := none, faviconRel := "icon" }),
        ("5", { title := "C", faviconHref := none, faviconRel := "icon" })].filterMap
          (fun e => jsParseInt e.1)) :=
  ⟨rfl, (c8_invalid_keys_skipped _ _ rfl).1⟩

/-! ## Claim C9: the blank-write postcondition -/

/-- C9: after `purgeTabDetails` runs on a page, the title is exactly one
zero-width-space character, every icon-relation link's href is the fixed
transparent-GIF data URI with rel standardized to `icon`, and if the
page had no icon link beforehand exactly one such link exists
afterwards. -/
theorem c9_purge_blank (p : Page) :
    (purgeTabDetails p).title = "\u200B" ∧
    (∀ l ∈ (purgeTabDetails p).links, strHas l.rel "icon" = true →
      l.rel = "icon" ∧ l.href = blankFavicon) ∧
    (p.links.any (fun l => strHas l.rel "icon") = false →
      ((purgeTabDetails p).links.filter (fun l => strHas l.rel "icon")).length = 1) := by
  unfold purgeTabDetails
  refine ⟨rfl, ?_, ?_⟩
  · intro l hl hicon
    dsimp only at hl
    split at hl
    · obtain ⟨l0, hl0, hfl⟩ := List.mem_map.mp hl
      by_cases hc : strHas l0.rel "icon" = true
      · rw [if_pos hc] at hfl
        rw [← hfl]
        exact ⟨rfl, rfl⟩
      · rw [if_neg hc] at hfl
        rw [← hfl] at hicon
        exact absurd hicon hc
    · rename_i hany
      rw [Bool.not_eq_true, List.any_eq_false] at hany
      rcases List.mem_append.mp hl with h | h
      · exact absurd hicon (by simpa using hany l h)
      · rw [List.mem_singleton.mp h]
        exact ⟨rfl, rfl⟩
  · intro hany
    dsimp only
    rw [if_neg (by rw [hany]; exact Bool.false_ne_true)]
    rw [List.filter_append]
    have hnil : p.links.filter (fun l => strHas l.rel "icon") = [] := by
      rw [List.filter_eq_nil_iff]
      intro l hl
      rw [List.any_eq_false] at hany
      simpa using hany l hl
    rw [hnil]
    rfl

/-- C9 witness: a page with one icon link, one stylesheet link, and no
icon link at all. -/
theorem c9_witness :
    ((purgeTabDetails
        { title := "Doc", origin := "https://a.example"
          links := [{ rel := "stylesheet", href := "s.css" },
                    { rel := "shortcut icon", href := "f.ico" }]
          metaImage := none, faviconProbeComplete := false }).title = "\u200B" ∧
      (∀ l ∈ (purgeTabDetails
          { title := "Doc", origin := "https://a.example"
            links := [{ rel := "stylesheet", href := "s.css" },
                      { rel := "shortcut icon", href := "f.ico" }]
            metaImage := none, faviconProbeComplete := false }).links,
        strHas l.rel "icon" = true → l.rel = "icon" ∧ l.href = blankFavicon) ∧
      (({ title := "Doc", origin := "https://a.example"
          links := [{ rel := "stylesheet", href := "s.css" },
                    { rel := "shortcut icon", href := "f.ico" }]
          metaImage := none, faviconProbeComplete := false } : Page).links.any
            (fun l => strHas l.rel "icon") = false →
        ((purgeTabDetails
            { title := "Doc", origin := "https://a.example"
              links := [{ rel := "stylesheet", href := "s.css" },
                        { rel := "shortcut icon", href := "f.ico" }]
              metaImage := none, faviconProbeComplete := false }).links.filter
              (fun l => strHas l.rel "icon")).length = 1)) :=
  c9_purge_blank _

/-! ## Claim C10: unknown modes run only the snapshot phase -/

/-- C10: for every mode other than purgeAll and professional, the
invocation still performs the full snapshot phase (reads dispatched and
a capture persisted when no snapshot exists) but dispatches no per-tab
write, leaving every tab unchanged. -/
theorem c10_unknown_mode (mode : String) (fo : FetchOutcome) (r : Nat → Nat)
    (w : World) (h1 : (mode == "purgeAll") = false)
    (h2 : (mode == "professional") = false) :
    (manageTabs mode fo r w).writes = [] ∧
    (manageTabs mode fo r w).world.tabs = w.tabs ∧
    (manageTabs mode fo r w).world.storage = savePhaseStorage w ∧
    (manageTabs mode fo r w).reads = savePhaseReads w ∧
    (manageTabs mode fo r w).snapSaved = isEmptyStorage w.storage := by
  unfold manageTabs
  simp [h1, h2]

/-- C10 witness: the mode string "undoPurge" with no prior snapshot. -/
theorem c10_witness :
    (("undoPurge" : String) == "purgeAll") = false ∧
    (("undoPurge" : String) == "professional") = false ∧
    ((manageTabs "undoPurge" FetchOutcome.netError (fun _ => 0)
        { storage := none
          tabs := [{ id := some 4, url := "http://c.example/", readOk := true
                     page := { title := "C", origin := "http://c.example"
                               links := [], metaImage := none
                               faviconProbeComplete := false } }] }).writes = [] ∧
      (manageTabs "undoPurge" FetchOutcome.netError (fun _ => 0)
        { storage := none
          tabs := [{ id := some 4, url := "http://c.example/", readOk := true
                     page := { title := "C", origin := "http://c.example"
                               links := [], metaImage := none
                               faviconProbeComplete := false } }] }).world.tabs =
        ({ storage := none
           tabs := [{ id := some 4, url := "http://c.example/", readOk := true
                      page := { title := "C", origin := "http://c.example"
                                links := [], metaImage := none
                                faviconProbeComplete := false } }] } : World).tabs ∧
      (manageTabs "undoPurge" FetchOutcome.netError (fun _ => 0)
        { storage := none
          tabs := [{ id := some 4, url := "http://c.example/", readOk := true
                     page := { title := "C", origin := "http://c.example"
                               links := [], metaImage := none
                               faviconProbeComplete := false } }] }).world.storage =
        savePhaseStorage
          { storage := none
            tabs := [{ id := some 4, url := "http://c.example/", readOk := true
                       page := { title := "C", origin := "http://c.example"
                                 links := [], metaImage := none
                                 faviconProbeComplete := false } }] } ∧
      (manageTabs "undoPurge" FetchOutcome.netError (fun _ => 0)
        { storage := none
          tabs := [{ id := some 4, url := "http://c.example/", readOk := true
                     page := { title := "C", origin := "http://c.example"
                               links := [], metaImage := none
                               faviconProbeComplete := false } }] }).reads =
        savePhaseReads
          { storage := none
            tabs := [{ id := some 4, url := "http://c.example/", readOk := true
                       page := { title := "C", origin := "http://c.example"
                                 links := [], metaImage := none
                                 faviconProbeComplete := false } }] } ∧
      (manageTabs "undoPurge" FetchOutcome.netError (fun _ => 0)
        { storage := none
          tabs := [{ id := some 4, url := "http://c.example/", readOk := true
                     page := { title := "C", origin := "http://c.example"
                               links := [], metaImage := none
                               faviconProbeComplete := false } }] }).snapSaved =
        isEmptyStorage (none : Option Snapshot)) :=
  ⟨rfl, rfl, c10_unknown_mode "undoPurge" FetchOutcome.netError (fun _ => 0) _ rfl rfl⟩

/-! ## Claim C1: the snapshot-save phase runs at most once per cycle -/

/-- C1 counterexample: with no eligible tab the first invocation
persists an empty snapshot object, so the second invocation's
snapshot-save phase runs again (a second snapshot write) instead of
being skipped — the claim's "the snapshot-save phase is skipped
entirely" fails at this input. -/
theorem c1_counterexample :
    (manageTabs "purgeAll" FetchOutcome.netError (fun _ => 0)
        { storage := none, tabs := [] }).snapSaved = true ∧
    (manageTabs "purgeAll" FetchOutcome.netError (fun _ => 0)
        (manageTabs "purgeAll" FetchOutcome.netError (fun _ => 0)
          { storage := none, tabs := [] }).world).snapSaved = true :=
  ⟨rfl, rfl⟩

/-- C1 (amended): starting with no persisted snapshot, when the first
invocation's capture is non-empty (at least one eligible tab whose read
succeeds), two consecutive disguise invocations — any modes, no
intervening undo — perform exactly one snapshot write: the first
invocation saves, the second invocation's snapshot-save phase is
skipped, and the snapshot persisted after both is exactly the capture of
the pre-first-disguise state. -/
theorem c1_save_once (mode1 mode2 : String) (fo1 fo2 : FetchOutcome)
    (r1 r2 : Nat → Nat) (w : World)
    (h0 : isEmptyStorage w.storage = true)
    (hcap : captureSnapshot w.tabs ≠ []) :
    (manageTabs mode1 fo1 r1 w).snapSaved = true ∧
    (manageTabs mode2 fo2 r2 (manageTabs mode1 fo1 r1 w).world).snapSaved = false ∧
    (manageTabs mode2 fo2 r2 (manageTabs mode1 fo1 r1 w).world).world.storage =
      some (captureSnapshot w.tabs) := by
  have h1 : (manageTabs mode1 fo1 r1 w).world.storage =
      some (captureSnapshot w.tabs) := by
    rw [manageTabs_storage]
    unfold savePhaseStorage
    rw [if_pos h0]
  have hne : isEmptyStorage (manageTabs mode1 fo1 r1 w).world.storage = false := by
    rw [h1]
    show (captureSnapshot w.tabs).isEmpty = false
    cases hemp : (captureSnapshot w.tabs).isEmpty
    · rfl
    · rw [List.isEmpty_iff] at hemp
      exact absurd hemp hcap
  refine ⟨?_, ?_, ?_⟩
  · rw [manageTabs_snapSaved, h0]
  · rw [manageTabs_snapSaved, hne]
  · rw [manageTabs_storage]
    unfold savePhaseStorage
    rw [if_neg (by rw [hne]; exact Bool.false_ne_true)]
    exact h1

/-- C1 witness: one eligible tab; the first invocation saves, the second
skips the save phase and the original capture persists. -/
theorem c1_witness :
    isEmptyStorage (none : Option Snapshot) = true ∧
    captureSnapshot
      [{ id := some 1, url := "https://a.example/x", readOk := true
         page := { title := "Doc", origin := "https://a.example"
                   links := [{ rel := "icon", href := "https://a.example/f.ico" }]
                   metaImage := none, faviconProbeComplete := false } }] ≠ [] ∧
    ((manageTabs "purgeAll" FetchOutcome.netError (fun _ => 0)
        { storage := none
          tabs := [{ id := some 1, url := "https://a.example/x", readOk := true
                     page := { title := "Doc", origin := "https://a.example"
                               links := [{ rel := "icon",
                                           href := "https://a.example/f.ico" }]
                               metaImage := none
                               faviconProbeComplete := false } }] }).snapSaved = true ∧
      (manageTabs "professional" FetchOutcome.netError (fun _ => 0)
        (manageTabs "purgeAll" FetchOutcome.netError (fun _ => 0)
          { storage := none
            tabs := [{ id := some 1, url := "https://a.example/x", readOk := true
                       page := { title := "Doc", origin := "https://a.example"
                                 links := [{ rel := "icon",
                                             href := "https://a.example/f.ico" }]
                                 metaImage := none
                                 faviconProbeComplete := false } }] }).world).snapSaved
        = false ∧
      (manageTabs "professional" FetchOutcome.netError (fun _ => 0)
        (manageTabs "purgeAll" FetchOutcome.netError (fun _ => 0)
          { storage := none
            tabs := [{ id := some 1, url := "https://a.example/x", readOk := true
                       page := { title := "Doc", origin := "https://a.example"
                                 links := [{ rel := "icon",
                                             href := "https://a.example/f.ico" }]
                                 metaImage := none
                                 faviconProbeComplete := false } }] }).world).world.storage
        = some (captureSnapshot
            [{ id := some 1, url := "https://a.example/x", readOk := true
               page := { title := "Doc", origin := "https://a.example"
                         links := [{ rel := "icon", href := "https://a.example/f.ico" }]
                         metaImage := none, faviconProbeComplete := false } }])) :=
  ⟨rfl, by unfold captureSnapshot; simp; decide,
    c1_save_once "purgeAll" "professional" FetchOutcome.netError FetchOutcome.netError
      (fun _ => 0) (fun _ => 0) _ rfl (by unfold captureSnapshot; simp; decide)⟩

/-! ## Claim C4: a non-empty snapshot means disguise writes were
dispatched by the invocation that created it -/

/-- C4 counterexample: a Professional invocation whose mapping fetch
fails creates and persists a non-empty snapshot while dispatching no
disguise write at all — a reachable state (one invocation from a fresh
world) with a non-empty persisted snapshot and undisguised tabs. -/
theorem c4_counterexample :
    isEmptyStorage
        (manageTabs "professional" FetchOutcome.netError (fun _ => 0)
          { storage := none
            tabs := [{ id := some 1, url := "https://a.example/x", readOk := true
                       page := { title := "Doc", origin := "https://a.example"
                                 links := [{ rel := "icon",
                                             href := "https://a.example/f.ico" }]
                                 metaImage := none
                                 faviconProbeComplete := false } }] }).world.storage
      = false ∧
    (manageTabs "professional" FetchOutcome.netError (fun _ => 0)
        { storage := none
          tabs := [{ id := some 1, url := "https://a.example/x", readOk := true
                     page := { title := "Doc", origin := "https://a.example"
                               links := [{ rel := "icon",
                                           href := "https://a.example/f.ico" }]
                               metaImage := none
                               faviconProbeComplete := false } }] }).writes = [] :=
  ⟨by decide, rfl⟩

/-- C4 (amended): when an invocation creates the snapshot (no snapshot
existed before), every tab recorded in the persisted snapshot received a
disguise write in that same invocation — provided the invocation was a
purgeAll, or a professional run whose mapping loaded non-empty; a
professional run with an empty mapping (and any unknown mode) instead
persists the snapshot while dispatching no writes. -/
theorem c4_snapshot_tabs_written (mode : String) (fo : FetchOutcome)
    (r : Nat → Nat) (w : World)
    (h0 : isEmptyStorage w.storage = true)
    (hmode : mode = "purgeAll" ∨
      (mode = "professional" ∧ (loadDomainMappings fo).isEmpty = false)) :
    ∀ e ∈ (manageTabs mode fo r w).world.storage.getD [],
      ∃ m, e.1 = natKey m ∧ m ∈ (manageTabs mode fo r w).writes := by
  intro e he
  rw [manageTabs_storage] at he
  unfold savePhaseStorage at he
  rw [if_pos h0] at he
  simp only [Option.getD_some] at he
  obtain ⟨m, hm, hmem⟩ := captureSnapshot_key he
  refine ⟨m, hm, ?_⟩
  have hw : (manageTabs mode fo r w).writes = eligIds w.tabs := by
    rcases hmode with h | ⟨h, hne⟩
    · subst h
      simp [manageTabs]
    · subst h
      simp [manageTabs, hne]
  rw [hw]
  exact hmem

/-- C4 witness: a purgeAll invocation from a fresh world; the single
snapshot entry's tab is among the dispatched writes. -/
theorem c4_witness :
    isEmptyStorage (none : Option Snapshot) = true ∧
    (("purgeAll" : String) = "purgeAll" ∨
      (("purgeAll" : String) = "professional" ∧
        (loadDomainMappings FetchOutcome.netError).isEmpty = false)) ∧
    ∀ e ∈ (manageTabs "purgeAll" FetchOutcome.netError (fun _ => 0)
        { storage := none
          tabs := [{ id := some 1, url := "https://a.example/x", readOk := true
                     page := { title := "Doc", origin := "https://a.example"
                               links := [{ rel := "icon",
                                           href := "https://a.example/f.ico" }]
                               metaImage := none
                               faviconProbeComplete := false } }] }).world.storage.getD [],
      ∃ m, e.1 = natKey m ∧
        m ∈ (manageTabs "purgeAll" FetchOutcome.netError (fun _ => 0)
          { storage := none
            tabs := [{ id := some 1, url := "https://a.example/x", readOk := true
                       page := { title := "Doc", origin := "https://a.example"
                                 links := [{ rel := "icon",
                                             href := "https://a.example/f.ico" }]
                                 metaImage := none
                                 faviconProbeComplete := false } }] }).writes :=
  ⟨rfl, Or.inl rfl,
    c4_snapshot_tabs_written "purgeAll" FetchOutcome.netError (fun _ => 0) _
      rfl (Or.inl rfl)⟩

/-! ## Claim C3: non-http(s) tabs are excluded from every operation -/

/-- C3: a tab whose URL starts with neither `http:` nor `https:` is
never targeted by any script injection (save-phase read, apply-phase
write, or undo restore) in any sequence of invocations from a world with
no prior snapshot, and no snapshot entry is ever keyed by its id (so it
is excluded from save, apply and restore alike). -/
theorem c3_nonhttp_excluded (w : World) (es : List Event) (t : TabEntry) (n : Nat)
    (h0 : isEmptyStorage w.storage = true)
    (_ht : t ∈ w.tabs)
    (hurl : (strStartsWith t.url "http:" || strStartsWith t.url "https:") = false)
    (_hid : t.id = some n)
    (huniq : ∀ t' ∈ w.tabs, t'.id = some n → t' = t) :
    (n : Int) ∉ runTargets w es ∧
      ∀ e ∈ (runWorld w es).storage.getD [], e.1 ≠ natKey n := by
  have helig : eligible t = false := by
    unfold eligible
    rw [hurl]
    simp
  have hnotin : n ∉ eligIds w.tabs := by
    intro hmem
    unfold eligIds at hmem
    rw [List.mem_filterMap] at hmem
    obtain ⟨t', ht', hid'⟩ := hmem
    rw [List.mem_filter] at ht'
    have heq := huniq t' ht'.1 hid'
    rw [heq, helig] at ht'
    exact absurd ht'.2 (by simp)
  constructor
  · intro hmem
    obtain ⟨m, hmel, hxm⟩ := runTargets_sub es w (storageOK_of_empty h0) _ hmem
    have hmn : m = n := by exact_mod_cast hxm.symm
    rw [hmn] at hmel
    exact hnotin hmel
  · intro e he hkey
    have hOK := runWorld_storageOK es w (storageOK_of_empty h0)
    obtain ⟨m, hm, hmem⟩ := hOK e he
    have hnm : n = m := natKey_inj (hkey.symm.trans hm)
    rw [runWorld_eligIds] at hmem
    rw [← hnm] at hmem
    exact hnotin hmem

/-- C3 witness: a browser-internal tab alongside an eligible one, under
a purgeAll invocation followed by an undo: the internal tab's id is
never targeted and never keyed in storage. -/
theorem c3_witness :
    ((2 : Int) ∉ runTargets
        { storage := none
          tabs := [{ id := some 1, url := "https://a.example/x", readOk := true
                     page := { title := "Doc", origin := "https://a.example"
                               links := [], metaImage := none
                               faviconProbeComplete := false } },
                   { id := some 2, url := "chrome://settings", readOk := true
                     page := { title := "Settings", origin := "chrome://settings"
                               links := [], metaImage := none
                               faviconProbeComplete := false } }] }
        [Event.disguiseEv "purgeAll" FetchOutcome.netError (fun _ => 0),
         Event.undoEv] ∧
      ∀ e ∈ (runWorld
          { storage := none
            tabs := [{ id := some 1, url := "https://a.example/x", readOk := true
                       page := { title := "Doc", origin := "https://a.example"
                                 links := [], metaImage := none
                                 faviconProbeComplete := false } },
                     { id := some 2, url := "chrome://settings", readOk := true
                       page := { title := "Settings", origin := "chrome://settings"
                                 links := [], metaImage := none
                                 faviconProbeComplete := false } }] }
          [Event.disguiseEv "purgeAll" FetchOutcome.netError (fun _ => 0),
           Event.undoEv]).storage.getD [], e.1 ≠ natKey 2) :=
  c3_nonhttp_excluded _ _
    { id := some 2, url := "chrome://settings", readOk := true
      page := { title := "Settings", origin := "chrome://settings"
                links := [], metaImage := none, faviconProbeComplete := false } }
    2 rfl (by decide) (by decide) rfl (by decide)

/-! ## Claim C2: disguise followed by undo restores title and icon -/

/-- C2 counterexample: an icon link with no href attribute is captured
as `faviconHref = some ""` — non-null, as the claim requires — but the
restore path treats the empty string as falsy and installs the blank
transparent-GIF icon instead, so no link with the captured href `""` is
left: after disguise and undo the tab has no icon link whose href is the
captured `F`. -/
theorem c2_counterexample :
    getTabDetails { title := "Doc", origin := "https://a.example"
                    links := [{ rel := "icon", href := "" }]
                    metaImage := none, faviconProbeComplete := false } =
      { title := "Doc", faviconHref := some "", faviconRel := "icon" } ∧
    ∀ tb ∈ (undoChanges (manageTabs "purgeAll" FetchOutcome.netError (fun _ => 0)
        { storage := none
          tabs := [{ id := some 1, url := "https://a.example/x", readOk := true
                     page := { title := "Doc", origin := "https://a.example"
                               links := [{ rel := "icon", href := "" }]
                               metaImage := none
                               faviconProbeComplete := false } }] }).world).world.tabs,
      ∀ l ∈ tb.page.links, l.href ≠ "" :=
  ⟨by decide, by decide⟩

/-- C2 (amended): for every tab whose captured original details are
{title T, faviconHref F, faviconRel R} with F non-null and non-empty,
a disguise invocation (any mode) followed by undo restores the page
title to exactly T and leaves an icon link element with href F and rel R
(when the captured F is the empty string, restore installs the blank
transparent-GIF icon instead). -/
theorem c2_round_trip (mode : String) (fo : FetchOutcome) (r : Nat → Nat)
    (w : World) (t : TabEntry) (n : Nat) (T F R : String)
    (h0 : isEmptyStorage w.storage = true)
    (ht : t ∈ w.tabs) (he : eligible t = true) (hro : t.readOk = true)
    (hid : t.id = some n)
    (huniq : ∀ t' ∈ w.tabs, t'.id = some n → t' = t)
    (hdet : getTabDetails t.page =
      { title := T, faviconHref := some F, faviconRel := R })
    (hF : F ≠ "") :
    ∃ tb ∈ (undoChanges (manageTabs mode fo r w).world).world.tabs,
      tb.id = some n ∧ tb.page.title = T ∧
        (⟨R, F⟩ : LinkEl) ∈ tb.page.links := by
  have hdF : jsTruthyStr (getTabDetails t.page).faviconHref = true := by
    rw [hdet]
    exact bne_iff_ne.mpr hF
  have hdR : (getTabDetails t.page).faviconRel ≠ "" := getTabDetails_rel_ne_empty t.page
  have hcapmem : (natKey n, getTabDetails t.page) ∈ captureSnapshot w.tabs :=
    captureSnapshot_mem_self ht he hro hid
  have hstor : (manageTabs mode fo r w).world.storage =
      some (captureSnapshot w.tabs) := by
    rw [manageTabs_storage]
    unfold savePhaseStorage
    rw [if_pos h0]
  have hcapne : (captureSnapshot w.tabs).isEmpty = false := by
    cases hemp : (captureSnapshot w.tabs).isEmpty
    · rfl
    · rw [List.isEmpty_iff] at hemp
      rw [hemp] at hcapmem
      exact absurd hcapmem (List.not_mem_nil _)
  have hundo := undoChanges_world_of_nonempty hstor hcapne
  have hfin : (undoChanges (manageTabs mode fo r w).world).world.tabs =
      (captureSnapshot w.tabs).foldl restoreStep (manageTabs mode fo r w).world.tabs := by
    rw [hundo]
  have hHd : ∀ e ∈ captureSnapshot w.tabs,
      jsParseInt e.1 = some (n : Int) → e.2 = getTabDetails t.page := by
    intro e hemem hpar
    obtain ⟨t', k, ht', he', hk', heq⟩ := captureSnapshot_entry hemem
    rw [heq] at hpar
    dsimp only at hpar
    rw [jsParseInt_natKey] at hpar
    have hkn : k = n := by
      have h2 : ((k : Nat) : Int) = ((n : Nat) : Int) := by
        injection hpar
      exact_mod_cast h2
    subst hkn
    have heqt := huniq t' ht' hk'
    rw [heq]
    dsimp only
    rw [heqt]
  have hsig : (undoChanges (manageTabs mode fo r w).world).world.tabs.map tabSig =
      w.tabs.map tabSig := by
    rw [hfin, foldl_restoreStep_sig, manageTabs_tabs_sig]
  obtain ⟨tb, htb, hsb⟩ := mem_of_sig hsig.symm ht
  have htbid : tb.id = some n := by
    have h3 := tabSig_id hsb
    rw [h3, hid]
  have hres : restoredProp (getTabDetails t.page) tb.page := by
    refine fold_estab hdF hdR (captureSnapshot w.tabs)
      ((manageTabs mode fo r w).world.tabs) hcapmem hHd tb ?_ htbid
    rw [← hfin]
    exact htb
  obtain ⟨hTitle, hLink⟩ := hres
  refine ⟨tb, htb, htbid, ?_, ?_⟩
  · rw [hTitle, hdet]
  · have h4 : (⟨(getTabDetails t.page).faviconRel,
        (getTabDetails t.page).faviconHref.getD ""⟩ : LinkEl) = ⟨R, F⟩ := by
      rw [hdet]
      rfl
    rw [← h4]
    exact hLink

/-- C2 witness: a tab with a `shortcut icon` link, disguised with
purgeAll and undone: the title and the icon link (href and rel) are
restored. -/
theorem c2_witness :
    ∃ tb ∈ (undoChanges (manageTabs "purgeAll" FetchOutcome.netError (fun _ => 0)
        { storage := none
          tabs := [{ id := some 1, url := "https://a.example/x", readOk := true
                     page := { title := "Doc", origin := "https://a.example"
                               links := [{ rel := "shortcut icon",
                                           href := "https://a.example/f.ico" }]
                               metaImage := none
                               faviconProbeComplete := false } }] }).world).world.tabs,
      tb.id = some 1 ∧ tb.page.title = "Doc" ∧
        (⟨"shortcut icon", "https://a.example/f.ico"⟩ : LinkEl) ∈ tb.page.links :=
  c2_round_trip "purgeAll" FetchOutcome.netError (fun _ => 0) _
    { id := some 1, url := "https://a.example/x", readOk := true
      page := { title := "Doc", origin := "https://a.example"
                links := [{ rel := "shortcut icon", href := "https://a.example/f.ico" }]
                metaImage := none, faviconProbeComplete := false } }
    1 "Doc" "https://a.example/f.ico" "shortcut icon"
    rfl (by decide) (by decide) rfl rfl (by decide) (by decide) (by decide)

end TabRandomiser
